import Mathlib

/-!
Verification of the metrics core of the `metrix` repository
(`src/metrics_calculator.py`) against its specification.

Python strings are modelled as `List Char` (a Python `str` is a sequence of
Unicode code points; `len` counts code points).  Floats are modelled as `ℚ`.
Python dicts with a fixed key set are modelled as structures whose field
names are the dict keys.  A raised `ValueError` is modelled as `Except.error`
carrying the message.

The source delegates alignment to the third-party `jiwer` library
(`process_words` / `process_characters`), whose code is not part of the
repository; those two functions are modelled from the spec (see their doc
comments).  Everything else is translated directly from
`src/metrics_calculator.py`.
-/

namespace Metrix

/-- Python string model: a sequence of Unicode code points. -/
abbrev PyStr := List Char

/-- Whitespace test used by the models of `str.strip()` and `str.split()`. -/
def isSpace (c : Char) : Bool := c.isWhitespace

/-- Model of Python `str.strip()`: remove leading and trailing whitespace. -/
def pyStrip (s : PyStr) : PyStr :=
  ((s.dropWhile isSpace).reverse.dropWhile isSpace).reverse

/-- Helper for `pySplit`: `acc` holds the (reversed) current word. -/
def pySplitAux : PyStr → PyStr → List PyStr
  | [], acc => if acc.isEmpty then [] else [acc.reverse]
  | c :: cs, acc =>
    if isSpace c then
      if acc.isEmpty then pySplitAux cs [] else acc.reverse :: pySplitAux cs []
    else pySplitAux cs (c :: acc)

/-- Model of Python `str.split()` with no argument: split on runs of
whitespace, dropping empty fields. -/
def pySplit (s : PyStr) : List PyStr := pySplitAux s []

/-- One edit operation of an alignment, as in the spec's `EditOperation`. -/
inductive EditOp (α : Type) where
  | hit (r : α)
  | sub (r h : α)
  | del (r : α)
  | ins (h : α)
deriving DecidableEq, Repr

/-- Number of `hit` operations in an alignment. -/
def opHits {α : Type} (ops : List (EditOp α)) : Nat :=
  ops.countP fun o => match o with | .hit _ => true | _ => false

/-- Number of `sub` operations in an alignment. -/
def opSubs {α : Type} (ops : List (EditOp α)) : Nat :=
  ops.countP fun o => match o with | .sub _ _ => true | _ => false

/-- Number of `del` operations in an alignment. -/
def opDels {α : Type} (ops : List (EditOp α)) : Nat :=
  ops.countP fun o => match o with | .del _ => true | _ => false

/-- Number of `ins` operations in an alignment. -/
def opIns {α : Type} (ops : List (EditOp α)) : Nat :=
  ops.countP fun o => match o with | .ins _ => true | _ => false

/-- Number of error (non-`hit`) operations in an alignment. -/
def opErrors {α : Type} (ops : List (EditOp α)) : Nat :=
  ops.countP fun o => match o with | .hit _ => false | _ => true

/-- Fuel-indexed recursion underlying `alignOps`; the fuel only serves to
make the recursion structural, and `alignOps` always supplies enough of it
(one unit per consumed element). -/
def alignOpsF {α : Type} [DecidableEq α] : Nat → List α → List α → List (EditOp α)
  | 0, _, _ => []
  | _ + 1, [], [] => []
  | f + 1, [], y :: ys => .ins y :: alignOpsF f [] ys
  | f + 1, x :: xs, [] => .del x :: alignOpsF f xs []
  | f + 1, x :: xs, y :: ys =>
    if x = y then .hit x :: alignOpsF f xs ys
    else
      let s := alignOpsF f xs ys
      let d := alignOpsF f xs (y :: ys)
      let i := alignOpsF f (x :: xs) ys
      if opErrors s ≤ opErrors d ∧ opErrors s ≤ opErrors i then .sub x y :: s
      else if opErrors d ≤ opErrors i then .del x :: d
      else .ins y :: i

/-- Modelled from the spec: the Aligner (§4.2) that the source obtains from
the external `jiwer` library.  Minimum-edit-distance alignment with unit
cost for substitution, deletion and insertion, tie-break preferring
match > substitution > deletion > insertion. -/
def alignOps {α : Type} [DecidableEq α] (r h : List α) : List (EditOp α) :=
  alignOpsF (r.length + h.length) r h

/-- The part of jiwer's `WordOutput` / `CharacterOutput` that the source
reads: the four counts and the already-computed error rate. -/
structure JiwerOutput where
  hits : Nat
  substitutions : Nat
  deletions : Nat
  insertions : Nat
  rate : ℚ
deriving DecidableEq, Repr

/-- Modelled from the spec: `jiwer.process_words` (external library, code not
in the repository).  Tokenizes both texts into whitespace-delimited words
(spec §4.1, Word mode), aligns them (spec §4.2), and reports the counts and
the word error rate `(S+D+I)/(H+S+D)` (the denominator is the number of
reference words; guarded to `0` when it is zero). -/
def process_words (reference hypothesis : PyStr) : JiwerOutput :=
  let ops := alignOps (pySplit reference) (pySplit hypothesis)
  let h := opHits ops
  let s := opSubs ops
  let d := opDels ops
  let i := opIns ops
  { hits := h, substitutions := s, deletions := d, insertions := i,
    rate := if h + s + d = 0 then 0 else ((s + d + i : ℚ)) / ((h + s + d : ℚ)) }

/-- Modelled from the spec: `jiwer.process_characters` (external library,
code not in the repository).  Tokenizes both texts into individual Unicode
code points (spec §4.1, Character mode), aligns them (spec §4.2), and
reports the counts and the character error rate `(S+D+I)/(H+S+D)`. -/
def process_characters (reference hypothesis : PyStr) : JiwerOutput :=
  let ops := alignOps reference hypothesis
  let h := opHits ops
  let s := opSubs ops
  let d := opDels ops
  let i := opIns ops
  { hits := h, substitutions := s, deletions := d, insertions := i,
    rate := if h + s + d = 0 then 0 else ((s + d + i : ℚ)) / ((h + s + d : ℚ)) }

/-- The dict returned by `calculate_wer_metrics`, keys as in the source. -/
structure WerMetrics where
  wer : ℚ
  word_accuracy : ℚ
  deletions : Nat
  insertions : Nat
  substitutions : Nat
  correct : Nat
  word_count : Nat
deriving DecidableEq, Repr

/-- The dict returned by `calculate_cer_metrics`, keys as in the source. -/
structure CerMetrics where
  cer : ℚ
  character_accuracy : ℚ
  deletions : Nat
  insertions : Nat
  substitutions : Nat
  correct : Nat
  character_count : Nat
deriving DecidableEq, Repr

/-- `calculate_wer_metrics` (src/src/metrics_calculator.py, lines 9-83).
The source's `try/except` re-raise cannot fire in the model because the
modelled `process_words` is total. -/
def calculate_wer_metrics (reference hypothesis : PyStr) : WerMetrics :=
  if (pyStrip reference).isEmpty then
    if (pyStrip hypothesis).isEmpty then
      { wer := 0, word_accuracy := 1, deletions := 0, insertions := 0,
        substitutions := 0, correct := 0, word_count := 0 }
    else
      let hyp_words := (pySplit hypothesis).length
      { wer := 1, word_accuracy := 0, deletions := 0, insertions := hyp_words,
        substitutions := 0, correct := 0, word_count := 0 }
  else
    let output := process_words reference hypothesis
    let word_count := (pySplit reference).length
    let h := output.hits
    let s := output.substitutions
    let d := output.deletions
    let i := output.insertions
    let wer_value := output.rate
    let word_accuracy : ℚ := if word_count > 0 then (h : ℚ) / (word_count : ℚ) else 0
    { wer := wer_value, word_accuracy := word_accuracy, deletions := d,
      insertions := i, substitutions := s, correct := h, word_count := word_count }

/-- `calculate_cer_metrics` (src/src/metrics_calculator.py, lines 86-159). -/
def calculate_cer_metrics (reference hypothesis : PyStr) : CerMetrics :=
  if (pyStrip reference).isEmpty then
    if (pyStrip hypothesis).isEmpty then
      { cer := 0, character_accuracy := 1, deletions := 0, insertions := 0,
        substitutions := 0, correct := 0, character_count := 0 }
    else
      let hyp_chars := hypothesis.length
      { cer := 1, character_accuracy := 0, deletions := 0, insertions := hyp_chars,
        substitutions := 0, correct := 0, character_count := 0 }
  else
    let output := process_characters reference hypothesis
    let character_count := reference.length
    let h := output.hits
    let s := output.substitutions
    let d := output.deletions
    let i := output.insertions
    let cer_value := output.rate
    let character_accuracy : ℚ :=
      if character_count > 0 then (h : ℚ) / (character_count : ℚ) else 0
    { cer := cer_value, character_accuracy := character_accuracy, deletions := d,
      insertions := i, substitutions := s, correct := h,
      character_count := character_count }

/-- The alignment list returned by `get_alignment`: word-level operations on
the `'wer'` path, character-level operations otherwise. -/
inductive Alignment where
  | words (ops : List (EditOp PyStr))
  | chars (ops : List (EditOp Char))
deriving DecidableEq, Repr

/-- `get_alignment` (src/src/metrics_calculator.py, lines 162-181). -/
def get_alignment (reference hypothesis : PyStr) (metric_type : String) : Alignment :=
  if metric_type = "wer" then
    Alignment.words (alignOps (pySplit reference) (pySplit hypothesis))
  else
    Alignment.chars (alignOps reference hypothesis)

/-- The aggregated dict built on the `'wer'` path of
`calculate_metrics_batch`, keys as in the source. -/
structure WerAggregate where
  wer : ℚ
  word_accuracy : ℚ
  deletions : Nat
  insertions : Nat
  substitutions : Nat
  correct : Nat
  word_count : Nat
  total_sentences : Nat
deriving DecidableEq, Repr

/-- The aggregated dict built on the non-`'wer'` path of
`calculate_metrics_batch`, keys as in the source. -/
structure CerAggregate where
  cer : ℚ
  character_accuracy : ℚ
  deletions : Nat
  insertions : Nat
  substitutions : Nat
  correct : Nat
  character_count : Nat
  total_sentences : Nat
deriving DecidableEq, Repr

/-- The aggregated metrics dict: its key set depends on the metric type. -/
inductive AggMetrics where
  | wer (m : WerAggregate)
  | cer (m : CerAggregate)
deriving DecidableEq, Repr

/-- The per-sentence metrics dict stored in an alignment record: its key set
depends on the metric type. -/
inductive SentenceMetrics where
  | wer (m : WerMetrics)
  | cer (m : CerMetrics)
deriving DecidableEq, Repr

/-- One element of the per-sentence alignment list built by
`calculate_metrics_batch` (source lines 231-236). -/
structure AlignmentRecord where
  reference : PyStr
  hypothesis : PyStr
  alignment : Alignment
  metrics : SentenceMetrics
deriving DecidableEq, Repr

/-- `calculate_metrics_batch` (src/src/metrics_calculator.py, lines 184-280).
The source's loop accumulates the five running totals and the alignment
list over `zip(references, hypotheses)`; here the totals are the sums of the
per-pair fields and the list is a map over the same zip.  The source selects
the per-pair calculator inside the loop and the aggregated dict's key names
after it, both by the same `metric_type == 'wer'` test; here that test is
hoisted to one branch.  The unused `with_adjustments` / `without_adjustments`
parameters are omitted.  The raised `ValueError` is the `Except.error`. -/
def calculate_metrics_batch (references hypotheses : List PyStr)
    (metric_type : String) : Except String (AggMetrics × List AlignmentRecord) :=
  if references.length ≠ hypotheses.length then
    Except.error "Reference and hypothesis lists must have the same length"
  else
    let pairs := references.zip hypotheses
    if metric_type = "wer" then
      let ms := pairs.map fun p => calculate_wer_metrics p.1 p.2
      let total_correct := (ms.map fun m => m.correct).sum
      let total_deletions := (ms.map fun m => m.deletions).sum
      let total_insertions := (ms.map fun m => m.insertions).sum
      let total_substitutions := (ms.map fun m => m.substitutions).sum
      let total_count := (ms.map fun m => m.word_count).sum
      let total_errors := total_substitutions + total_deletions + total_insertions
      let rates : ℚ × ℚ :=
        if total_count = 0 then
          if total_errors > 0 then (1, 0) else (0, 1)
        else ((total_errors : ℚ) / (total_count : ℚ), (total_correct : ℚ) / (total_count : ℚ))
      let alignments := pairs.map fun p =>
        { reference := p.1, hypothesis := p.2,
          alignment := get_alignment p.1 p.2 metric_type,
          metrics := SentenceMetrics.wer (calculate_wer_metrics p.1 p.2) }
      Except.ok (AggMetrics.wer
        { wer := rates.1, word_accuracy := rates.2, deletions := total_deletions,
          insertions := total_insertions, substitutions := total_substitutions,
          correct := total_correct, word_count := total_count,
          total_sentences := references.length }, alignments)
    else
      let ms := pairs.map fun p => calculate_cer_metrics p.1 p.2
      let total_correct := (ms.map fun m => m.correct).sum
      let total_deletions := (ms.map fun m => m.deletions).sum
      let total_insertions := (ms.map fun m => m.insertions).sum
      let total_substitutions := (ms.map fun m => m.substitutions).sum
      let total_count := (ms.map fun m => m.character_count).sum
      let total_errors := total_substitutions + total_deletions + total_insertions
      let rates : ℚ × ℚ :=
        if total_count = 0 then
          if total_errors > 0 then (1, 0) else (0, 1)
        else ((total_errors : ℚ) / (total_count : ℚ), (total_correct : ℚ) / (total_count : ℚ))
      let alignments := pairs.map fun p =>
        { reference := p.1, hypothesis := p.2,
          alignment := get_alignment p.1 p.2 metric_type,
          metrics := SentenceMetrics.cer (calculate_cer_metrics p.1 p.2) }
      Except.ok (AggMetrics.cer
        { cer := rates.1, character_accuracy := rates.2, deletions := total_deletions,
          insertions := total_insertions, substitutions := total_substitutions,
          correct := total_correct, character_count := total_count,
          total_sentences := references.length }, alignments)

/-- Division lifted to `Option`: `none` exactly when the denominator is
zero.  Used by the `..._checked` variants below to show that no division by
zero is ever performed. -/
def divOpt (a b : ℚ) : Option ℚ := if b = 0 then none else some (a / b)

/-- `calculate_wer_metrics` with its one division site (`h / word_count`,
source line 70) performed through `divOpt`; otherwise identical. -/
def calculate_wer_metrics_checked (reference hypothesis : PyStr) :
    Option WerMetrics :=
  if (pyStrip reference).isEmpty then
    if (pyStrip hypothesis).isEmpty then
      some { wer := 0, word_accuracy := 1, deletions := 0, insertions := 0,
             substitutions := 0, correct := 0, word_count := 0 }
    else
      let hyp_words := (pySplit hypothesis).length
      some { wer := 1, word_accuracy := 0, deletions := 0, insertions := hyp_words,
             substitutions := 0, correct := 0, word_count := 0 }
  else
    let output := process_words reference hypothesis
    let word_count := (pySplit reference).length
    let h := output.hits
    let acc? : Option ℚ :=
      if word_count > 0 then divOpt (h : ℚ) (word_count : ℚ) else some 0
    acc?.map fun word_accuracy =>
      { wer := output.rate, word_accuracy := word_accuracy,
        deletions := output.deletions, insertions := output.insertions,
        substitutions := output.substitutions, correct := h,
        word_count := word_count }

/-- `calculate_cer_metrics` with its one division site (`h /
character_count`, source line 146) performed through `divOpt`; otherwise
identical. -/
def calculate_cer_metrics_checked (reference hypothesis : PyStr) :
    Option CerMetrics :=
  if (pyStrip reference).isEmpty then
    if (pyStrip hypothesis).isEmpty then
      some { cer := 0, character_accuracy := 1, deletions := 0, insertions := 0,
             substitutions := 0, correct := 0, character_count := 0 }
    else
      let hyp_chars := hypothesis.length
      some { cer := 1, character_accuracy := 0, deletions := 0, insertions := hyp_chars,
             substitutions := 0, correct := 0, character_count := 0 }
  else
    let output := process_characters reference hypothesis
    let character_count := reference.length
    let h := output.hits
    let acc? : Option ℚ :=
      if character_count > 0 then divOpt (h : ℚ) (character_count : ℚ) else some 0
    acc?.map fun character_accuracy =>
      { cer := output.rate, character_accuracy := character_accuracy,
        deletions := output.deletions, insertions := output.insertions,
        substitutions := output.substitutions, correct := h,
        character_count := character_count }

/-- `calculate_metrics_batch` with its two aggregate division sites
(`total_errors / total_count` and `total_correct / total_count`, source
lines 254-255) performed through `divOpt`; otherwise identical. -/
def calculate_metrics_batch_checked (references hypotheses : List PyStr)
    (metric_type : String) :
    Option (Except String (AggMetrics × List AlignmentRecord)) :=
  if references.length ≠ hypotheses.length then
    some (Except.error "Reference and hypothesis lists must have the same length")
  else
    let pairs := references.zip hypotheses
    if metric_type = "wer" then
      let ms := pairs.map fun p => calculate_wer_metrics p.1 p.2
      let total_correct := (ms.map fun m => m.correct).sum
      let total_deletions := (ms.map fun m => m.deletions).sum
      let total_insertions := (ms.map fun m => m.insertions).sum
      let total_substitutions := (ms.map fun m => m.substitutions).sum
      let total_count := (ms.map fun m => m.word_count).sum
      let total_errors := total_substitutions + total_deletions + total_insertions
      let rates? : Option (ℚ × ℚ) :=
        if total_count = 0 then
          if total_errors > 0 then some (1, 0) else some (0, 1)
        else
          (divOpt (total_errors : ℚ) (total_count : ℚ)).bind fun e =>
            (divOpt (total_correct : ℚ) (total_count : ℚ)).map fun a => (e, a)
      let alignments := pairs.map fun p =>
        { reference := p.1, hypothesis := p.2,
          alignment := get_alignment p.1 p.2 metric_type,
          metrics := SentenceMetrics.wer (calculate_wer_metrics p.1 p.2) }
      rates?.map fun rates =>
        Except.ok (AggMetrics.wer
          { wer := rates.1, word_accuracy := rates.2, deletions := total_deletions,
            insertions := total_insertions, substitutions := total_substitutions,
            correct := total_correct, word_count := total_count,
            total_sentences := references.length }, alignments)
    else
      let ms := pairs.map fun p => calculate_cer_metrics p.1 p.2
      let total_correct := (ms.map fun m => m.correct).sum
      let total_deletions := (ms.map fun m => m.deletions).sum
      let total_insertions := (ms.map fun m => m.insertions).sum
      let total_substitutions := (ms.map fun m => m.substitutions).sum
      let total_count := (ms.map fun m => m.character_count).sum
      let total_errors := total_substitutions + total_deletions + total_insertions
      let rates? : Option (ℚ × ℚ) :=
        if total_count = 0 then
          if total_errors > 0 then some (1, 0) else some (0, 1)
        else
          (divOpt (total_errors : ℚ) (total_count : ℚ)).bind fun e =>
            (divOpt (total_correct : ℚ) (total_count : ℚ)).map fun a => (e, a)
      let alignments := pairs.map fun p =>
        { reference := p.1, hypothesis := p.2,
          alignment := get_alignment p.1 p.2 metric_type,
          metrics := SentenceMetrics.cer (calculate_cer_metrics p.1 p.2) }
      rates?.map fun rates =>
        Except.ok (AggMetrics.cer
          { cer := rates.1, character_accuracy := rates.2, deletions := total_deletions,
            insertions := total_insertions, substitutions := total_substitutions,
            correct := total_correct, character_count := total_count,
            total_sentences := references.length }, alignments)

/-! ### Support lemmas -/

/-- Every alignment consumes each reference unit by exactly one of `hit`,
`sub`, `del`: the three counts add up to the reference length. -/
theorem alignOpsF_hsd {α : Type} [DecidableEq α] :
    ∀ (f : Nat) (r h : List α), r.length + h.length ≤ f →
      opHits (alignOpsF f r h) + opSubs (alignOpsF f r h) + opDels (alignOpsF f r h)
        = r.length := by
  intro f
  induction f with
  | zero =>
    intro r h hf
    have hr : r.length = 0 := by omega
    simp [alignOpsF, opHits, opSubs, opDels, hr]
  | succ f ih =>
    intro r h hf
    match r, h with
    | [], [] => simp [alignOpsF, opHits, opSubs, opDels]
    | [], y :: ys =>
      have := ih [] ys (by simp at hf ⊢; omega)
      simp only [alignOpsF, opHits, opSubs, opDels, List.countP_cons] at this ⊢
      simpa using this
    | x :: xs, [] =>
      have := ih xs [] (by simp at hf ⊢; omega)
      simp only [alignOpsF, opHits, opSubs, opDels, List.countP_cons] at this ⊢
      simp at this ⊢
      omega
    | x :: xs, y :: ys =>
      by_cases hxy : x = y
      · have := ih xs ys (by simp at hf ⊢; omega)
        simp only [alignOpsF, if_pos hxy, opHits, opSubs, opDels, List.countP_cons] at this ⊢
        simp at this ⊢
        omega
      · have hs := ih xs ys (by simp at hf ⊢; omega)
        have hd := ih xs (y :: ys) (by simp at hf ⊢; omega)
        have hi := ih (x :: xs) ys (by simp at hf ⊢; omega)
        simp only [alignOpsF, if_neg hxy]
        split
        · simp only [opHits, opSubs, opDels, List.countP_cons] at hs ⊢
          simp at hs ⊢
          omega
        · split
          · simp only [opHits, opSubs, opDels, List.countP_cons] at hd ⊢
            simp at hd ⊢
            omega
          · simp only [opHits, opSubs, opDels, List.countP_cons] at hi ⊢
            simp at hi ⊢
            omega

/-- `alignOps` version of `alignOpsF_hsd`. -/
theorem alignOps_hsd {α : Type} [DecidableEq α] (r h : List α) :
    opHits (alignOps r h) + opSubs (alignOps r h) + opDels (alignOps r h) = r.length :=
  alignOpsF_hsd (r.length + h.length) r h le_rfl

/-- With an empty hypothesis, the alignment deletes every reference unit. -/
theorem alignOpsF_nil_right {α : Type} [DecidableEq α] :
    ∀ (f : Nat) (r : List α), r.length ≤ f → alignOpsF f r [] = r.map EditOp.del := by
  intro f
  induction f with
  | zero =>
    intro r hf
    have hr : r = [] := by
      cases r with
      | nil => rfl
      | cons a l => simp at hf
    simp [alignOpsF, hr]
  | succ f ih =>
    intro r hf
    match r with
    | [] => simp [alignOpsF]
    | x :: xs =>
      simp only [alignOpsF, List.map_cons, List.cons.injEq, true_and]
      exact ih xs (by simp at hf; omega)

/-- `alignOps` version of `alignOpsF_nil_right`. -/
theorem alignOps_nil_right {α : Type} [DecidableEq α] (r : List α) :
    alignOps r [] = r.map EditOp.del :=
  alignOpsF_nil_right _ r (by simp)

/-- Counting the operations of an all-deletions alignment. -/
theorem counts_map_del {α : Type} (r : List α) :
    opHits (r.map EditOp.del) = 0 ∧ opSubs (r.map EditOp.del) = 0 ∧
    opDels (r.map EditOp.del) = r.length ∧ opIns (r.map EditOp.del) = 0 := by
  refine ⟨?_, ?_, ?_, ?_⟩ <;>
    simp [opHits, opSubs, opDels, opIns, List.countP_map, Function.comp]

/-- If `pySplitAux` starts with a pending word or some non-whitespace
character remains, it produces at least one word. -/
theorem pySplitAux_ne_nil :
    ∀ (s acc : PyStr), acc ≠ [] ∨ (∃ c ∈ s, isSpace c = false) →
      pySplitAux s acc ≠ [] := by
  intro s
  induction s with
  | nil =>
    intro acc hacc
    rcases hacc with hacc | ⟨c, hc, _⟩
    · simp [pySplitAux, hacc]
    · simp at hc
  | cons c cs ih =>
    intro acc hacc
    by_cases hc : isSpace c
    · by_cases ha : acc.isEmpty
      · have hrest : ∃ d ∈ cs, isSpace d = false := by
          rcases hacc with hacc | ⟨d, hd, hds⟩
          · exact absurd (List.isEmpty_iff.mp ha) hacc
          · rcases List.mem_cons.mp hd with rfl | hd
            · exact absurd hc (by simp [hds])
            · exact ⟨d, hd, hds⟩
        simp only [pySplitAux, if_pos hc, if_pos ha]
        exact ih [] (Or.inr hrest)
      · simp [pySplitAux, hc, ha]
    · simp only [pySplitAux, if_neg hc]
      exact ih (c :: acc) (Or.inl (by simp))

/-- A string whose `strip()` is non-empty contains a non-whitespace
character. -/
theorem exists_nonspace_of_strip (s : PyStr) (h : (pyStrip s).isEmpty = false) :
    ∃ c ∈ s, isSpace c = false := by
  by_contra hno
  push_neg at hno
  have hall : ∀ c ∈ s, isSpace c = true := by
    intro c hc
    have := hno c hc
    revert this
    cases isSpace c <;> simp
  have : pyStrip s = [] := by
    unfold pyStrip
    have h1 : s.dropWhile isSpace = [] := List.dropWhile_eq_nil_iff.mpr hall
    simp [h1]
  simp [this] at h

/-- A string whose `strip()` is non-empty splits into at least one word. -/
theorem pySplit_ne_nil (s : PyStr) (h : (pyStrip s).isEmpty = false) :
    pySplit s ≠ [] :=
  pySplitAux_ne_nil s [] (Or.inr (exists_nonspace_of_strip s h))

/-- The aggregation property claimed for the `'wer'` path of
`calculate_metrics_batch`: the batch call succeeds, its count fields are the
sums of the per-pair count fields, and its error rate and accuracy are
derived from those sums by the documented case split. -/
def werAggDerived (refs hyps : List PyStr) : Prop :=
  ∃ m al,
    calculate_metrics_batch refs hyps "wer" = Except.ok (AggMetrics.wer m, al) ∧
    m.substitutions =
      ((refs.zip hyps).map fun p => (calculate_wer_metrics p.1 p.2).substitutions).sum ∧
    m.deletions =
      ((refs.zip hyps).map fun p => (calculate_wer_metrics p.1 p.2).deletions).sum ∧
    m.insertions =
      ((refs.zip hyps).map fun p => (calculate_wer_metrics p.1 p.2).insertions).sum ∧
    m.correct =
      ((refs.zip hyps).map fun p => (calculate_wer_metrics p.1 p.2).correct).sum ∧
    m.word_count =
      ((refs.zip hyps).map fun p => (calculate_wer_metrics p.1 p.2).word_count).sum ∧
    (m.word_count = 0 → 0 < m.substitutions + m.deletions + m.insertions →
      m.wer = 1 ∧ m.word_accuracy = 0) ∧
    (m.word_count = 0 → m.substitutions + m.deletions + m.insertions = 0 →
      m.wer = 0 ∧ m.word_accuracy = 1) ∧
    (m.word_count ≠ 0 →
      m.wer = ((m.substitutions + m.deletions + m.insertions : ℕ) : ℚ) / (m.word_count : ℚ) ∧
      m.word_accuracy = (m.correct : ℚ) / (m.word_count : ℚ))

/-- The same aggregation property for the `'cer'` path. -/
def cerAggDerived (refs hyps : List PyStr) : Prop :=
  ∃ m al,
    calculate_metrics_batch refs hyps "cer" = Except.ok (AggMetrics.cer m, al) ∧
    m.substitutions =
      ((refs.zip hyps).map fun p => (calculate_cer_metrics p.1 p.2).substitutions).sum ∧
    m.deletions =
      ((refs.zip hyps).map fun p => (calculate_cer_metrics p.1 p.2).deletions).sum ∧
    m.insertions =
      ((refs.zip hyps).map fun p => (calculate_cer_metrics p.1 p.2).insertions).sum ∧
    m.correct =
      ((refs.zip hyps).map fun p => (calculate_cer_metrics p.1 p.2).correct).sum ∧
    m.character_count =
      ((refs.zip hyps).map fun p => (calculate_cer_metrics p.1 p.2).character_count).sum ∧
    (m.character_count = 0 → 0 < m.substitutions + m.deletions + m.insertions →
      m.cer = 1 ∧ m.character_accuracy = 0) ∧
    (m.character_count = 0 → m.substitutions + m.deletions + m.insertions = 0 →
      m.cer = 0 ∧ m.character_accuracy = 1) ∧
    (m.character_count ≠ 0 →
      m.cer = ((m.substitutions + m.deletions + m.insertions : ℕ) : ℚ) / (m.character_count : ℚ) ∧
      m.character_accuracy = (m.correct : ℚ) / (m.character_count : ℚ))

/-! ### Claim theorems -/

/-- C5: for every pair where the reference is empty or whitespace-only and
the hypothesis is also empty or whitespace-only, the per-pair calculator
returns errorRate 0, accuracy 1, all counts 0 and unit count 0 (both in
Word mode and in Character mode). -/
theorem per_pair_both_blank (ref hyp : PyStr)
    (h1 : (pyStrip ref).isEmpty = true) (h2 : (pyStrip hyp).isEmpty = true) :
    calculate_wer_metrics ref hyp =
      { wer := 0, word_accuracy := 1, deletions := 0, insertions := 0,
        substitutions := 0, correct := 0, word_count := 0 } ∧
    calculate_cer_metrics ref hyp =
      { cer := 0, character_accuracy := 1, deletions := 0, insertions := 0,
        substitutions := 0, correct := 0, character_count := 0 } := by
  constructor <;> simp [calculate_wer_metrics, calculate_cer_metrics, h1, h2]

/-- Witness for C5 at reference `"  "` and hypothesis `""`. -/
theorem per_pair_both_blank_witness :
    calculate_wer_metrics "  ".toList [] =
      { wer := 0, word_accuracy := 1, deletions := 0, insertions := 0,
        substitutions := 0, correct := 0, word_count := 0 } ∧
    calculate_cer_metrics "  ".toList [] =
      { cer := 0, character_accuracy := 1, deletions := 0, insertions := 0,
        substitutions := 0, correct := 0, character_count := 0 } :=
  per_pair_both_blank "  ".toList [] (by decide) (by decide)

/-- C3: for every pair where the reference is empty or whitespace-only and
the hypothesis is not, the per-pair calculator returns errorRate 1,
accuracy 0, insertions equal to the hypothesis token count (whitespace-split
word count in Word mode, code-point count in Character mode), all other
counts 0 and unit count 0. -/
theorem per_pair_blank_ref (ref hyp : PyStr)
    (h1 : (pyStrip ref).isEmpty = true) (h2 : (pyStrip hyp).isEmpty = false) :
    calculate_wer_metrics ref hyp =
      { wer := 1, word_accuracy := 0, deletions := 0,
        insertions := (pySplit hyp).length, substitutions := 0, correct := 0,
        word_count := 0 } ∧
    calculate_cer_metrics ref hyp =
      { cer := 1, character_accuracy := 0, deletions := 0,
        insertions := hyp.length, substitutions := 0, correct := 0,
        character_count := 0 } := by
  constructor <;> simp [calculate_wer_metrics, calculate_cer_metrics, h1, h2]

/-- Witness for C3 at reference `" "` and hypothesis `"hello"`. -/
theorem per_pair_blank_ref_witness :
    calculate_wer_metrics " ".toList "hello".toList =
      { wer := 1, word_accuracy := 0, deletions := 0,
        insertions := (pySplit "hello".toList).length, substitutions := 0,
        correct := 0, word_count := 0 } ∧
    calculate_cer_metrics " ".toList "hello".toList =
      { cer := 1, character_accuracy := 0, deletions := 0,
        insertions := "hello".toList.length, substitutions := 0, correct := 0,
        character_count := 0 } :=
  per_pair_blank_ref " ".toList "hello".toList (by decide) (by decide)

/-- C6: for every non-blank reference, Word-mode per-pair metrics with an
empty hypothesis take the normal (aligner) path and yield deletions equal
to the whitespace-split word count of the reference and errorRate 1. -/
theorem wer_empty_hypothesis (ref : PyStr) (h1 : (pyStrip ref).isEmpty = false) :
    (calculate_wer_metrics ref []).deletions = (pySplit ref).length ∧
    (calculate_wer_metrics ref []).wer = 1 := by
  have hsplit : pySplit ([] : PyStr) = [] := rfl
  have hops : alignOps (pySplit ref) (pySplit ([] : PyStr)) =
      (pySplit ref).map EditOp.del := by
    rw [hsplit, alignOps_nil_right]
  obtain ⟨hh, hs, hd, hi⟩ := counts_map_del (pySplit ref)
  have hn : (pySplit ref).length ≠ 0 := by
    have := pySplit_ne_nil ref h1
    simpa [List.length_eq_zero] using this
  constructor
  · simp [calculate_wer_metrics, h1, process_words, hops, hd]
  · simp only [calculate_wer_metrics, h1, Bool.false_eq_true, if_false,
      process_words, hops, hh, hs, hd, hi]
    rw [if_neg (by omega)]
    push_cast
    rw [zero_add, add_zero, zero_add, zero_add]
    exact div_self (by exact_mod_cast hn)

/-- C2: for every reference that is not empty or whitespace-only, the
per-pair calculator returns a unit count equal to the reference token count
(whitespace-split words in Word mode, code points in Character mode), an
error rate equal to `(substitutions + deletions + insertions) / unitCount`
and an accuracy equal to `hits / unitCount`. -/
theorem per_pair_normal (ref hyp : PyStr) (h1 : (pyStrip ref).isEmpty = false) :
    ((calculate_wer_metrics ref hyp).word_count = (pySplit ref).length ∧
     (calculate_wer_metrics ref hyp).wer =
       (((calculate_wer_metrics ref hyp).substitutions : ℚ) +
          ((calculate_wer_metrics ref hyp).deletions : ℚ) +
          ((calculate_wer_metrics ref hyp).insertions : ℚ)) /
         ((calculate_wer_metrics ref hyp).word_count : ℚ) ∧
     (calculate_wer_metrics ref hyp).word_accuracy =
       ((calculate_wer_metrics ref hyp).correct : ℚ) /
         ((calculate_wer_metrics ref hyp).word_count : ℚ)) ∧
    ((calculate_cer_metrics ref hyp).character_count = ref.length ∧
     (calculate_cer_metrics ref hyp).cer =
       (((calculate_cer_metrics ref hyp).substitutions : ℚ) +
          ((calculate_cer_metrics ref hyp).deletions : ℚ) +
          ((calculate_cer_metrics ref hyp).insertions : ℚ)) /
         ((calculate_cer_metrics ref hyp).character_count : ℚ) ∧
     (calculate_cer_metrics ref hyp).character_accuracy =
       ((calculate_cer_metrics ref hyp).correct : ℚ) /
         ((calculate_cer_metrics ref hyp).character_count : ℚ)) := by
  have hnw : (pySplit ref).length ≠ 0 := by
    have := pySplit_ne_nil ref h1
    simpa [List.length_eq_zero] using this
  have hnc : ref.length ≠ 0 := by
    intro habs
    rw [List.length_eq_zero] at habs
    subst habs
    simp [pyStrip] at h1
  have hsdw := alignOps_hsd (pySplit ref) (pySplit hyp)
  have hsdc := alignOps_hsd ref hyp
  constructor
  · refine ⟨by simp [calculate_wer_metrics, h1], ?_, ?_⟩
    · simp only [calculate_wer_metrics, h1, Bool.false_eq_true, if_false,
        process_words]
      rw [if_neg (by omega)]
      congr 1
      exact_mod_cast hsdw
    · simp only [calculate_wer_metrics, h1, Bool.false_eq_true, if_false,
        process_words]
      rw [if_pos (by omega)]
  · refine ⟨by simp [calculate_cer_metrics, h1], ?_, ?_⟩
    · simp only [calculate_cer_metrics, h1, Bool.false_eq_true, if_false,
        process_characters]
      rw [if_neg (by omega)]
      congr 1
      exact_mod_cast hsdc
    · simp only [calculate_cer_metrics, h1, Bool.false_eq_true, if_false,
        process_characters]
      rw [if_pos (by omega)]

/-- Witness for C2 at reference `"hello world"` and hypothesis `"hello"`. -/
theorem per_pair_normal_witness :
    ((calculate_wer_metrics "hello world".toList "hello".toList).word_count =
       (pySplit "hello world".toList).length ∧
     (calculate_wer_metrics "hello world".toList "hello".toList).wer =
       (((calculate_wer_metrics "hello world".toList "hello".toList).substitutions : ℚ) +
          ((calculate_wer_metrics "hello world".toList "hello".toList).deletions : ℚ) +
          ((calculate_wer_metrics "hello world".toList "hello".toList).insertions : ℚ)) /
         ((calculate_wer_metrics "hello world".toList "hello".toList).word_count : ℚ) ∧
     (calculate_wer_metrics "hello world".toList "hello".toList).word_accuracy =
       ((calculate_wer_metrics "hello world".toList "hello".toList).correct : ℚ) /
         ((calculate_wer_metrics "hello world".toList "hello".toList).word_count : ℚ)) ∧
    ((calculate_cer_metrics "hello world".toList "hello".toList).character_count =
       "hello world".toList.length ∧
     (calculate_cer_metrics "hello world".toList "hello".toList).cer =
       (((calculate_cer_metrics "hello world".toList "hello".toList).substitutions : ℚ) +
          ((calculate_cer_metrics "hello world".toList "hello".toList).deletions : ℚ) +
          ((calculate_cer_metrics "hello world".toList "hello".toList).insertions : ℚ)) /
         ((calculate_cer_metrics "hello world".toList "hello".toList).character_count : ℚ) ∧
     (calculate_cer_metrics "hello world".toList "hello".toList).character_accuracy =
       ((calculate_cer_metrics "hello world".toList "hello".toList).correct : ℚ) /
         ((calculate_cer_metrics "hello world".toList "hello".toList).character_count : ℚ)) :=
  per_pair_normal "hello world".toList "hello".toList (by decide)

/-- C1: for every equal-length list of (reference, hypothesis) pairs,
`calculate_metrics_batch` succeeds, its count fields are the sums of the
per-pair counts, and the aggregate error rate and accuracy are derived from
those sums: both special cases when the summed unit count is 0, and the
ratios `errors / unitCount` and `hits / unitCount` otherwise (on the `'wer'`
path and on the `'cer'` path alike). -/
theorem batch_aggregate_derivation (refs hyps : List PyStr)
    (hlen : refs.length = hyps.length) :
    werAggDerived refs hyps ∧ cerAggDerived refs hyps := by
  constructor
  · unfold werAggDerived
    simp only [calculate_metrics_batch, hlen, ne_eq, eq_self_iff_true, not_true,
      if_false, ite_true, ite_false, reduceIte]
    refine ⟨_, _, rfl, ?_, ?_, ?_, ?_, ?_, ?_, ?_, ?_⟩
    case refine_1 | refine_2 | refine_3 | refine_4 | refine_5 =>
      dsimp only
      simp [List.map_map, Function.comp_def]
    · intro h0 hpos
      dsimp only at h0 hpos ⊢
      rw [if_pos h0, if_pos hpos]
      exact ⟨rfl, rfl⟩
    · intro h0 hz
      dsimp only at h0 hz ⊢
      rw [if_pos h0, if_neg (by omega)]
      exact ⟨rfl, rfl⟩
    · intro hne
      dsimp only at hne ⊢
      rw [if_neg hne]
      exact ⟨rfl, rfl⟩
  · unfold cerAggDerived
    simp only [calculate_metrics_batch, hlen, ne_eq, eq_self_iff_true, not_true,
      if_false, ite_true, ite_false, reduceIte]
    refine ⟨_, _, rfl, ?_, ?_, ?_, ?_, ?_, ?_, ?_, ?_⟩
    case refine_1 | refine_2 | refine_3 | refine_4 | refine_5 =>
      dsimp only
      simp [List.map_map, Function.comp_def]
    · intro h0 hpos
      dsimp only at h0 hpos ⊢
      rw [if_pos h0, if_pos hpos]
      exact ⟨rfl, rfl⟩
    · intro h0 hz
      dsimp only at h0 hz ⊢
      rw [if_pos h0, if_neg (by omega)]
      exact ⟨rfl, rfl⟩
    · intro hne
      dsimp only at hne ⊢
      rw [if_neg hne]
      exact ⟨rfl, rfl⟩

/-- Witness for C1 at the pair list `[("a", "b")]`. -/
theorem batch_aggregate_derivation_witness :
    werAggDerived [['a']] [['b']] ∧ cerAggDerived [['a']] [['b']] :=
  batch_aggregate_derivation [['a']] [['b']] rfl

/-- Witness for C6 at reference `"hello world"`. -/
theorem wer_empty_hypothesis_witness :
    (calculate_wer_metrics "hello world".toList []).deletions =
      (pySplit "hello world".toList).length ∧
    (calculate_wer_metrics "hello world".toList []).wer = 1 :=
  wer_empty_hypothesis "hello world".toList (by decide)

/-- C4: `calculate_metrics_batch` on `[("", "hello world"), ("", "test")]`
with the Word metric returns (without raising) aggregate metrics with
insertions 3, unit count 0, error rate 1 and accuracy 0. -/
theorem batch_all_empty_refs_example :
    (calculate_metrics_batch [[], []] ["hello world".toList, "test".toList] "wer").map
        Prod.fst =
      Except.ok (AggMetrics.wer
        { wer := 1, word_accuracy := 0, deletions := 0, insertions := 3,
          substitutions := 0, correct := 0, word_count := 0,
          total_sentences := 2 }) := by rfl

/-- C7: `calculate_metrics_batch` raises the mismatch error exactly when the
reference and hypothesis lists have different lengths, and succeeds
otherwise. -/
theorem batch_length_check (refs hyps : List PyStr) (mt : String) :
    (refs.length ≠ hyps.length →
      calculate_metrics_batch refs hyps mt =
        Except.error "Reference and hypothesis lists must have the same length") ∧
    (refs.length = hyps.length →
      ∃ res, calculate_metrics_batch refs hyps mt = Except.ok res) := by
  constructor
  · intro hne
    simp [calculate_metrics_batch, hne]
  · intro heq
    by_cases hmt : mt = "wer" <;>
      simp [calculate_metrics_batch, heq, hmt]

/-- Witness for C7 at a mismatched pair of lists and at an equal-length
pair. -/
theorem batch_length_check_witness :
    calculate_metrics_batch [['a']] [] "wer" =
      Except.error "Reference and hypothesis lists must have the same length" ∧
    ∃ res, calculate_metrics_batch [['a']] [['b']] "wer" = Except.ok res :=
  ⟨(batch_length_check [['a']] [] "wer").1 (by decide),
   (batch_length_check [['a']] [['b']] "wer").2 rfl⟩

/-- C8: `calculate_metrics_batch` on empty lists returns aggregate metrics
with all counts 0, error rate 0, accuracy 1, total sentences 0 and an
empty alignment list, for every metric-type selector. -/
theorem batch_empty_lists (mt : String) :
    calculate_metrics_batch [] [] mt =
      Except.ok ((if mt = "wer" then
        AggMetrics.wer
          { wer := 0, word_accuracy := 1, deletions := 0, insertions := 0,
            substitutions := 0, correct := 0, word_count := 0, total_sentences := 0 }
      else
        AggMetrics.cer
          { cer := 0, character_accuracy := 1, deletions := 0, insertions := 0,
            substitutions := 0, correct := 0, character_count := 0,
            total_sentences := 0 }), []) := by
  by_cases hmt : mt = "wer" <;> simp [calculate_metrics_batch, hmt]

/-- C9: any metric-type selector other than `'wer'` (including `'cer'`, but
also unrecognized values) silently takes the character-metric path in
`get_alignment` and in `calculate_metrics_batch`, and no error is raised
for an unknown selector. -/
theorem unknown_metric_type_char_path (mt : String) (hmt : mt ≠ "wer")
    (ref hyp : PyStr) (refs hyps : List PyStr) :
    get_alignment ref hyp mt = Alignment.chars (alignOps ref hyp) ∧
    calculate_metrics_batch refs hyps mt = calculate_metrics_batch refs hyps "cer" ∧
    (refs.length = hyps.length →
      ∃ res, calculate_metrics_batch refs hyps mt = Except.ok res) := by
  refine ⟨?_, ?_, ?_⟩
  · simp [get_alignment, hmt]
  · simp only [calculate_metrics_batch]
    split
    · rfl
    · rw [if_neg (by decide : ¬("cer" : String) = "wer")]
      simp [get_alignment, hmt]
  · intro hlen
    simp [calculate_metrics_batch, hlen, hmt]

/-- Witness for C9 at the unrecognized selector `"WER"`. -/
theorem unknown_metric_type_char_path_witness :
    get_alignment ['a'] ['b'] "WER" = Alignment.chars (alignOps ['a'] ['b']) ∧
    calculate_metrics_batch [['a']] [['b']] "WER" =
      calculate_metrics_batch [['a']] [['b']] "cer" ∧
    (([['a']] : List PyStr).length = ([['b']] : List PyStr).length →
      ∃ res, calculate_metrics_batch [['a']] [['b']] "WER" = Except.ok res) :=
  unknown_metric_type_char_path "WER" (by decide) ['a'] ['b'] [['a']] [['b']]

/-- The aggregate-rate computation with `divOpt` in place of `/` never hits
a zero denominator and agrees with the unchecked computation. -/
theorem rates_checked (tE tH tC : Nat) :
    (if tC = 0 then
       if tE > 0 then some ((1 : ℚ), (0 : ℚ)) else some ((0 : ℚ), (1 : ℚ))
     else (divOpt (tE : ℚ) (tC : ℚ)).bind fun e =>
       (divOpt (tH : ℚ) (tC : ℚ)).map fun a => (e, a))
    = some (if tC = 0 then
        if tE > 0 then ((1 : ℚ), (0 : ℚ)) else ((0 : ℚ), (1 : ℚ))
      else ((tE : ℚ) / (tC : ℚ), (tH : ℚ) / (tC : ℚ))) := by
  by_cases htc : tC = 0
  · by_cases hte : tE > 0 <;> simp [htc, hte]
  · simp [divOpt, htc, Nat.cast_eq_zero]

/-- C10: the checked variants, in which the division sites of the per-pair
calculators and of the batch aggregator return `none` on a zero
denominator, always return `some` of the unchecked result: no division by
zero occurs anywhere in the computation, for any input. -/
theorem no_division_by_zero (ref hyp : PyStr) (refs hyps : List PyStr) (mt : String) :
    calculate_wer_metrics_checked ref hyp = some (calculate_wer_metrics ref hyp) ∧
    calculate_cer_metrics_checked ref hyp = some (calculate_cer_metrics ref hyp) ∧
    calculate_metrics_batch_checked refs hyps mt =
      some (calculate_metrics_batch refs hyps mt) := by
  refine ⟨?_, ?_, ?_⟩
  · unfold calculate_wer_metrics_checked calculate_wer_metrics
    by_cases h1 : (pyStrip ref).isEmpty
    · by_cases h2 : (pyStrip hyp).isEmpty <;> simp [h1, h2]
    · by_cases hn : (pySplit ref).length > 0
      · simp [h1, hn, divOpt, Nat.cast_eq_zero, hn.ne']
      · simp [h1, hn]
  · unfold calculate_cer_metrics_checked calculate_cer_metrics
    by_cases h1 : (pyStrip ref).isEmpty
    · by_cases h2 : (pyStrip hyp).isEmpty <;> simp [h1, h2]
    · by_cases hn : ref.length > 0
      · simp [h1, hn, divOpt, Nat.cast_eq_zero, hn.ne']
      · simp [h1, hn]
  · by_cases hlen : refs.length = hyps.length
    · by_cases hmt : mt = "wer" <;>
        · simp only [calculate_metrics_batch_checked, calculate_metrics_batch, hlen,
            hmt, ne_eq, eq_self_iff_true, not_true, if_false, ite_true, ite_false,
            reduceIte]
          rw [rates_checked]
          rfl
    · simp [calculate_metrics_batch_checked, calculate_metrics_batch, hlen]
